import Mathlib

/-!
Shallow embedding of the DevOps sandbox agent (auth.py, sandbox.py,
config.py, models.py, server.py) and proofs about its specification.

Modelling conventions:
* Python dicts become association lists `List (String × α)` with
  insertion-order-preserving update (`dset`), deletion (`ddel`) and
  lookup (`dget`), matching CPython dict semantics.
* `datetime.utcnow()` / `time.time()` become a `Nat` instant passed in by
  the caller; all clock reads inside one operation observe the same
  instant.
* `secrets.token_urlsafe(32)` becomes a session-id value supplied by the
  caller (the CSPRNG output); freshness/injectivity of that source is an
  explicit hypothesis where a claim needs it.
* `hashlib.sha256(x).hexdigest()[:32]` becomes an abstract function
  `tokenHash : String → String`; nothing below depends on its definition.
* The filesystem under SANDBOX_ROOT is abstracted to the list of session
  ids whose sandbox directory tree exists.
* `logger.audit(event, session_id, **kwargs)` appends an `AuditEvent` to
  the manager state; `execute_command` additionally records each call of
  `_simulate_devops_command` in `simTrace` so that "no execution occurs"
  is observable.
-/

namespace DevOpsAgent

/-- `startsWithL p s`: `s` starts with `p`. -/
def startsWithL : List Char → List Char → Bool
  | [], _ => true
  | _ :: _, [] => false
  | p :: ps, c :: cs => p == c && startsWithL ps cs

/-- `hasSubL p s`: `p` occurs as a contiguous run inside `s`. -/
def hasSubL (p : List Char) : List Char → Bool
  | [] => p.isEmpty
  | c :: cs => startsWithL p (c :: cs) || hasSubL p cs

/-- Python `pat in hay` for strings. -/
def strContains (hay pat : String) : Bool :=
  hasSubL pat.data hay.data

/-- Python `str.startswith(pat)`. -/
def strStarts (s pat : String) : Bool :=
  startsWithL pat.data s.data

/-- The whitespace set of Python `str.strip()` / `str.split()`. -/
def isPyWs (c : Char) : Bool :=
  c == ' ' || c == '\t' || c == '\n' || c == '\x0d' || c == '\x0c' || c == '\x0b'

/-- Python `str.strip()` (no argument). -/
def pyTrim (s : String) : String :=
  String.mk ((s.data.dropWhile isPyWs).reverse.dropWhile isPyWs).reverse

/-- Accumulator pass behind `splitWs`; `cur` holds the current field in
reverse order. -/
def splitWsAux : List Char → List Char → List String
  | cur, [] => if cur.isEmpty then [] else [String.mk cur.reverse]
  | cur, c :: cs =>
    if isPyWs c then
      if cur.isEmpty then splitWsAux [] cs
      else String.mk cur.reverse :: splitWsAux [] cs
    else splitWsAux (c :: cur) cs

/-- Python `str.split()` (no argument): split on whitespace, discarding
empty fields. -/
def splitWs (s : String) : List String := splitWsAux [] s.data

/-- ASCII lower-casing of one character (Python `str.lower()` on the
ASCII command names this program handles). -/
def lowerChar (c : Char) : Char :=
  if 65 ≤ c.toNat ∧ c.toNat ≤ 90 then Char.ofNat (c.toNat + 32) else c

/-- Python `str.lower()`. -/
def pyLower (s : String) : String := String.mk (s.data.map lowerChar)

/-- Python `" ".join(parts)`. -/
def joinSp (parts : List String) : String := String.intercalate " " parts

/-- Association-list lookup, modelling `d.get(k)` / `d[k]`. -/
def dget {α : Type} (d : List (String × α)) (k : String) : Option α :=
  match d.find? (fun kv => kv.1 == k) with
  | some kv => some kv.2
  | none => none

/-- Membership test, modelling `k in d`. -/
def dmem {α : Type} (d : List (String × α)) (k : String) : Bool :=
  (dget d k).isSome

/-- Assignment `d[k] = v` on a CPython dict: update in place if the key
exists, otherwise append at the end. -/
def dset {α : Type} (d : List (String × α)) (k : String) (v : α) :
    List (String × α) :=
  match d with
  | [] => [(k, v)]
  | kv :: rest =>
    if kv.1 == k then (k, v) :: rest else kv :: dset rest k v

/-- Deletion `del d[k]`. -/
def ddel {α : Type} (d : List (String × α)) (k : String) :
    List (String × α) :=
  d.filter (fun kv => kv.1 ≠ k)

/-! ## config.py -/

/-- config.py `AVAILABLE_TOOLS`. -/
def AVAILABLE_TOOLS : List String :=
  ["git", "curl", "wget", "ssh", "scp", "rsync",
   "docker", "kubectl", "terraform", "ansible",
   "grep", "awk", "sed", "find", "cat", "ls", "pwd"]

/-- config.py `BLOCKED_COMMANDS`. -/
def BLOCKED_COMMANDS : List String :=
  ["rm", "rmdir", "delete", "format", "fdisk",
   "mkfs", "mount", "umount", "reboot", "shutdown",
   "systemctl", "service", "kill", "killall"]

/-- config.py `AUTH_TOKEN_SECRET` default value. -/
def AUTH_TOKEN_SECRET : String := "devops-agent-secret-key-2025"

/-! ## models.py -/

inductive AuthMethod where
  | ssh_key
  | api_token
deriving DecidableEq, Repr

inductive CommandStatus where
  | pending
  | running
  | completed
  | failed
  | timeout
deriving DecidableEq, Repr

structure CommandRequest where
  session_id : String
  command : String
  args : List String := []
  environment : List (String × String) := []
  working_directory : Option String := none
  timeoutOverride : Option Nat := none
deriving DecidableEq, Repr

structure CommandResponse where
  command_id : String
  status : CommandStatus
  stdout : String
  stderr : String
  exit_code : Option Int := none
  execution_time : Nat := 0
  timestamp : Nat
  resource_usage : List (String × String) := []
deriving DecidableEq, Repr

structure AuthRequest where
  method : AuthMethod
  credentials : String
  username : Option String := none
deriving DecidableEq, Repr

structure AuthResponse where
  success : Bool
  session_id : Option String := none
  message : String
  expires_at : Option Nat := none
deriving DecidableEq, Repr

/-- One `logger.audit(kind, session_id, **fields)` record. -/
structure AuditEvent where
  kind : String
  session_id : String
  fields : List (String × String) := []
deriving DecidableEq, Repr

/-! ## sandbox.py -/

/-- models.py `SandboxInfo` (resource limits kept as rendered strings). -/
structure SandboxInfo where
  session_id : String
  working_directory : String
  environment_variables : List (String × String)
  available_tools : List String
  resource_limits : List (String × String)
  created_at : Nat
deriving DecidableEq, Repr

/-- The mutable state of `SandboxManager`, plus the abstract filesystem
(`fs`: session ids whose sandbox directory exists) and the
instrumentation trace of `_simulate_devops_command` calls. -/
structure SandboxState where
  active_sandboxes : List (String × SandboxInfo) := []
  command_history : List (String × List CommandResponse) := []
  fs : List String := []
  audit : List AuditEvent := []
  simTrace : List (String × List String) := []
deriving DecidableEq, Repr

/-- The `dangerous_patterns` literal inside `_is_command_safe`. -/
def dangerous_patterns : List String := [">", ">>", "|", "&", ";", "$(", "\x60"]

/-- Render a Python single-quoted fragment, as the f-strings of
`_is_command_safe` do. -/
def pyq (s : String) : String := "\x27" ++ s ++ "\x27"

/-- sandbox.py `_is_command_safe`, generalised over the two config lists
it reads (`BLOCKED_COMMANDS`, `AVAILABLE_TOOLS`). -/
def is_command_safe_with (blocked allowed : List String)
    (command : String) : Bool × String :=
  match splitWs (pyTrim command) with
  | [] => (false, "Empty command")
  | base :: _ =>
    let base_command := pyLower base
    let bq := pyq base_command
    if blocked.contains base_command then
      (false, "Command " ++ bq ++ " is blocked for security reasons")
    else if ¬ allowed.contains base_command then
      (false, "Command " ++ bq ++ " is not available in sandbox")
    else
      match dangerous_patterns.find? (fun p => strContains command p) with
      | some p =>
        (false, "Command contains potentially dangerous pattern: " ++ p)
      | none => (true, "Command is safe")

/-- sandbox.py `_is_command_safe` with the config.py lists. -/
def is_command_safe (command : String) : Bool × String :=
  is_command_safe_with BLOCKED_COMMANDS AVAILABLE_TOOLS command

/-- sandbox.py `_simulate_devops_command`. -/
def simulate_devops_command (command : String) (args : List String) :
    String × String × Int :=
  let cmd_lower := pyLower command
  if cmd_lower == "git" then
    match args with
    | [] => ("git version 2.34.1", "", 0)
    | a0 :: rest =>
      if a0 == "status" then
        ("On branch main\nnothing to commit, working tree clean", "", 0)
      else if a0 == "clone" then
        let target := match rest with | t :: _ => t | [] => "repository"
        let tq := pyq target
        (s!"Cloning into {tq}...\nDone.", "", 0)
      else if a0 == "pull" then ("Already up to date.", "", 0)
      else
        let ja := joinSp args
        (s!"Simulated: git {ja}", "", 0)
  else if cmd_lower == "docker" then
    match args with
    | [] => ("Docker version 20.10.17", "", 0)
    | a0 :: _ =>
      if a0 == "ps" then
        ("CONTAINER ID   IMAGE     COMMAND   CREATED   STATUS    PORTS     NAMES",
         "", 0)
      else if a0 == "images" then
        ("REPOSITORY    TAG       IMAGE ID       CREATED       SIZE", "", 0)
      else
        let ja := joinSp args
        (s!"Simulated: docker {ja}", "", 0)
  else if cmd_lower == "kubectl" then
    match args with
    | [] => ("kubectl controls the Kubernetes cluster manager.", "", 0)
    | a0 :: _ =>
      if a0 == "get" then ("No resources found in default namespace.", "", 0)
      else
        let ja := joinSp args
        (s!"Simulated: kubectl {ja}", "", 0)
  else if cmd_lower == "terraform" then
    match args with
    | [] => ("Terraform v1.0.0", "", 0)
    | a0 :: _ =>
      if a0 == "plan" then ("No changes. Infrastructure is up-to-date.", "", 0)
      else if a0 == "apply" then
        ("Apply complete! Resources: 0 added, 0 changed, 0 destroyed.", "", 0)
      else
        let ja := joinSp args
        (s!"Simulated: terraform {ja}", "", 0)
  else if cmd_lower == "curl" then
    let url := match args with | u :: _ => u | [] => "http://example.com"
    (s!"Simulated HTTP GET to {url}\nStatus: 200 OK\nContent: Sample response",
     "", 0)
  else if ["ls", "pwd", "cat", "grep", "find"].contains cmd_lower then
    let ja := joinSp args
    (s!"Simulated: {command} {ja}", "", 0)
  else
    let ja := joinSp args
    (s!"Simulated: {command} {ja}", "", 0)

/-- config.py `SANDBOX_ROOT` default (`./sandbox`). -/
def SANDBOX_ROOT : String := "sandbox"

/-- sandbox.py `create_sandbox`. -/
def create_sandbox (s : SandboxState) (now : Nat)
    (session_id username : String) : SandboxInfo × SandboxState :=
  let sandbox_dir := SANDBOX_ROOT ++ "/" ++ session_id
  let info : SandboxInfo :=
    { session_id
      working_directory := sandbox_dir ++ "/workspace"
      environment_variables :=
        [("HOME", sandbox_dir ++ "/home"), ("TMPDIR", sandbox_dir ++ "/tmp"),
         ("USER", username), ("PWD", sandbox_dir ++ "/workspace"),
         ("PATH", "/usr/local/bin:/usr/bin:/bin"), ("SHELL", "/bin/bash"),
         ("TERM", "xterm-256color")]
      available_tools := AVAILABLE_TOOLS
      resource_limits :=
        [("max_execution_time", "30"), ("max_output_size", "1048576"),
         ("max_memory", "512MB"), ("max_cpu", "50%")]
      created_at := now }
  (info,
   { s with
     fs := if s.fs.contains session_id then s.fs else s.fs ++ [session_id]
     active_sandboxes := dset s.active_sandboxes session_id info
     command_history := dset s.command_history session_id []
     audit := s.audit ++
       [{ kind := "sandbox_created", session_id
          fields := [("sandbox_dir", sandbox_dir)] }] })

/-- sandbox.py `get_sandbox`. -/
def get_sandbox (s : SandboxState) (session_id : String) : Option SandboxInfo :=
  dget s.active_sandboxes session_id

/-- The `history[-100:]` trim in `execute_command` ("Keep only last 100
commands"). -/
def histTrim (h : List CommandResponse) : List CommandResponse :=
  if h.length > 100 then h.drop (h.length - 100) else h

/-- sandbox.py `execute_command`. The `try/except` around simulation is
dropped: every branch of `_simulate_devops_command` is a plain return, so
the handler is dead code. -/
def execute_command (s : SandboxState) (now : Nat)
    (request : CommandRequest) : CommandResponse × SandboxState :=
  let sid := request.session_id
  let command_id := "cmd_" ++ sid ++ "_" ++ toString now
  match dget s.active_sandboxes sid with
  | none =>
    let response : CommandResponse :=
      { command_id, status := .failed, stdout := ""
        stderr := "No sandbox found for session", exit_code := some 1
        execution_time := 0, timestamp := now }
    (response, s)
  | some _ =>
    let safe := is_command_safe request.command
    if ¬ safe.1 then
      let msg := safe.2
      let s1 := { s with audit := s.audit ++
        [{ kind := "unsafe_command_blocked", session_id := sid
           fields := [("command", request.command), ("reason", msg)] }] }
      let response : CommandResponse :=
        { command_id, status := .failed, stdout := ""
          stderr := "Command blocked: " ++ msg, exit_code := some 1
          execution_time := 0, timestamp := now }
      (response, s1)
    else
      let startEv : AuditEvent :=
        { kind := "command_execution_started", session_id := sid
          fields := [("command_id", command_id),
                     ("command", request.command),
                     ("args", joinSp request.args)] }
      let s1 := { s with audit := s.audit ++ [startEv] }
      let s2 := { s1 with
        simTrace := s1.simTrace ++ [(request.command, request.args)] }
      let out := simulate_devops_command request.command request.args
      let exit_code := out.2.2
      let status : CommandStatus :=
        if exit_code == 0 then .completed else .failed
      let response : CommandResponse :=
        { command_id, status, stdout := out.1, stderr := out.2.1
          exit_code := some exit_code, execution_time := 0, timestamp := now
          resource_usage := [("cpu_time", "0"), ("memory_peak", "< 1MB"),
                             ("disk_io", "minimal")] }
      let s3 :=
        match dget s2.command_history sid with
        | some h =>
          let h2 := histTrim (h ++ [response])
          { s2 with command_history := dset s2.command_history sid h2 }
        | none => s2
      let statusStr := if exit_code == 0 then "completed" else "failed"
      let doneEv : AuditEvent :=
        { kind := "command_execution_completed", session_id := sid
          fields := [("command_id", command_id), ("status", statusStr),
                     ("exit_code", toString exit_code)] }
      let s4 := { s3 with audit := s3.audit ++ [doneEv] }
      (response, s4)

/-- sandbox.py `get_command_history` (`history[-limit:] if limit > 0 else
history`). -/
def get_command_history (s : SandboxState) (session_id : String)
    (limit : Int) : List CommandResponse :=
  match dget s.command_history session_id with
  | none => []
  | some history =>
    if limit > 0 then history.drop (history.length - limit.toNat)
    else history

/-- sandbox.py `cleanup_sandbox`.  `shutil.rmtree` and the registry
deletions are modelled as always succeeding, so the `except` branch
(catch everything, log, return `False`) is unreachable in the
embedding. -/
def cleanup_sandbox (s : SandboxState) (session_id : String) :
    Bool × SandboxState :=
  if ¬ dmem s.active_sandboxes session_id then (false, s)
  else
    (true,
     { s with
       fs := s.fs.filter (fun i => i ≠ session_id)
       active_sandboxes := ddel s.active_sandboxes session_id
       command_history := ddel s.command_history session_id
       audit := s.audit ++ [{ kind := "sandbox_cleaned_up", session_id }] })

/-! ## auth.py -/

/-- One entry of `AuthManager.active_sessions`. -/
structure Session where
  username : String
  auth_method : AuthMethod
  created_at : Nat
  expires_at : Nat
  last_activity : Nat
deriving DecidableEq, Repr

/-- The mutable state of `AuthManager`. -/
structure AuthState where
  active_sessions : List (String × Session) := []
  api_tokens : List (String × String) := []
  ssh_keys : List (String × String) := []
  audit : List AuditEvent := []
deriving DecidableEq, Repr

/-- auth.py `_load_api_tokens`; `tokenHash` stands for
`lambda x: hashlib.sha256(x.encode()).hexdigest()[:32]`, which the rest
of the program treats as an opaque string-to-string map. -/
def load_api_tokens (tokenHash : String → String) : List (String × String) :=
  [("admin", tokenHash ("admin-" ++ AUTH_TOKEN_SECRET)),
   ("devops", tokenHash ("devops-" ++ AUTH_TOKEN_SECRET)),
   ("user", tokenHash ("user-" ++ AUTH_TOKEN_SECRET))]

/-- The hard-coded fallback key of `_load_ssh_keys`. -/
def DEMO_SSH_KEY : String :=
  "ssh-rsa AAAAB3NzaC1yc2EAAAADAQABAAABgQC... demo@localhost"

/-- The parsing loop of `_load_ssh_keys` over the lines of
`authorized_keys`. -/
def parse_authorized_keys (lines : List String) : List (String × String) :=
  lines.enum.foldl
    (fun ssh_keys p =>
      let line_num := p.1
      let line := pyTrim p.2
      if line ≠ "" ∧ ¬ strStarts line "#" then
        match splitWs line with
        | key_type :: key_data :: rest =>
          let username :=
            match rest with
            | u :: _ => u
            | [] => "user_" ++ toString line_num
          dset ssh_keys username (key_type ++ " " ++ key_data)
        | _ => ssh_keys
      else ssh_keys)
    []

/-- auth.py `_load_ssh_keys`; `authorized_keys_file` is the file's lines
when `AUTHORIZED_KEYS_FILE` exists and is readable, `none` otherwise (a
read error also leaves the dict empty). -/
def load_ssh_keys (authorized_keys_file : Option (List String)) :
    List (String × String) :=
  let ssh_keys :=
    match authorized_keys_file with
    | some lines => parse_authorized_keys lines
    | none => []
  if ssh_keys.isEmpty then [("demo", DEMO_SSH_KEY)] else ssh_keys

/-- auth.py `_validate_ssh_key`: accepts on equality OR on
`provided_key in stored_key` (substring containment). -/
def validate_ssh_key (ssh_keys : List (String × String))
    (provided_key : String) : Option String :=
  let pk := pyTrim provided_key
  match ssh_keys.find? (fun kv => pk == kv.2 || strContains kv.2 pk) with
  | some kv => some kv.1
  | none => none

/-- auth.py `_validate_api_token` (`secrets.compare_digest` is equality,
observed extensionally). -/
def validate_api_token (api_tokens : List (String × String))
    (token : String) : Option String :=
  match api_tokens.find? (fun kv => token == kv.2) with
  | some kv => some kv.1
  | none => none

/-- The wire value of an `AuthMethod` (models.py string enum). -/
def methodStr : AuthMethod → String
  | .ssh_key => "ssh_key"
  | .api_token => "api_token"

/-- The credential-dispatch step of `authenticate` (auth.py lines
81-86): resolve the username from the presented credentials. -/
def resolve_username (st : AuthState) (auth_request : AuthRequest) :
    Option String :=
  match auth_request.method with
  | .ssh_key => validate_ssh_key st.ssh_keys auth_request.credentials
  | .api_token => validate_api_token st.api_tokens auth_request.credentials

/-- auth.py `authenticate`.  `now` models the `datetime.utcnow()` reads,
`new_session_id` the `secrets.token_urlsafe(32)` output. -/
def authenticate (st : AuthState) (now : Nat) (new_session_id : String)
    (auth_request : AuthRequest) : AuthResponse × AuthState :=
  match resolve_username st auth_request with
  | none =>
    let failEv : AuditEvent :=
      { kind := "authentication_failed", session_id := "none"
        fields := [("method", methodStr auth_request.method),
                   ("username", (auth_request.username).getD "")] }
    let resp : AuthResponse :=
      { success := false, message := "Invalid credentials" }
    (resp, { st with audit := st.audit ++ [failEv] })
  | some username =>
    let expires_at := now + 24 * 60 * 60
    let session : Session :=
      { username, auth_method := auth_request.method, created_at := now
        expires_at, last_activity := now }
    let okEv : AuditEvent :=
      { kind := "authentication_success", session_id := new_session_id
        fields := [("method", methodStr auth_request.method),
                   ("username", username)] }
    let resp : AuthResponse :=
      { success := true, session_id := some new_session_id
        message := "Authenticated as " ++ username
        expires_at := some expires_at }
    (resp,
     { st with
       active_sessions := dset st.active_sessions new_session_id session
       audit := st.audit ++ [okEv] })

/-- The `session["last_activity"] = datetime.utcnow()` update of
`validate_session`. -/
def touch (sess : Session) (now : Nat) : Session :=
  { sess with last_activity := now }

/-- auth.py `validate_session`. -/
def validate_session (st : AuthState) (now : Nat) (session_id : String) :
    Option Session × AuthState :=
  match dget st.active_sessions session_id with
  | none => (none, st)
  | some session =>
    if now > session.expires_at then
      (none,
       { st with
         active_sessions := ddel st.active_sessions session_id
         audit := st.audit ++ [{ kind := "session_expired", session_id }] })
    else
      let session1 := { session with last_activity := now }
      (some session1,
       { st with
         active_sessions := dset st.active_sessions session_id session1 })

/-- auth.py `logout`. -/
def logout (st : AuthState) (session_id : String) : Bool × AuthState :=
  match dget st.active_sessions session_id with
  | some session =>
    let ev : AuditEvent :=
      { kind := "logout", session_id
        fields := [("username", session.username)] }
    (true,
     { st with
       active_sessions := ddel st.active_sessions session_id
       audit := st.audit ++ [ev] })
  | none => (false, st)

/-- auth.py `get_active_sessions`: sweep expired sessions, return the
rest. -/
def get_active_sessions (st : AuthState) (now : Nat) :
    List (String × Session) × AuthState :=
  let remaining :=
    st.active_sessions.filter (fun kv => ¬ now > kv.2.expires_at)
  (remaining, { st with active_sessions := remaining })

/-! ## server.py -/

/-- The whole server's mutable state (the two manager singletons). -/
structure ServerState where
  auth : AuthState
  sandbox : SandboxState
deriving DecidableEq, Repr

/-- server.py `/auth/login`: authenticate, then on success re-validate
the fresh session and provision its sandbox. -/
def server_login (s : ServerState) (now : Nat) (new_session_id : String)
    (auth_request : AuthRequest) : AuthResponse × ServerState :=
  let (resp, a1) := authenticate s.auth now new_session_id auth_request
  match resp.session_id, resp.success with
  | some sid, true =>
    let (sess?, a2) := validate_session a1 now sid
    match sess? with
    | some sess =>
      let (_, sb) := create_sandbox s.sandbox now sid sess.username
      (resp, { auth := a2, sandbox := sb })
    | none => (resp, { auth := a2, sandbox := s.sandbox })
  | _, _ => (resp, { auth := a1, sandbox := s.sandbox })

/-- server.py `/commands/execute`, through the `get_current_session`
dependency; `Except.error` carries the HTTP rejection detail
(401 invalid session / 400 session-id mismatch). -/
def server_execute (s : ServerState) (now : Nat) (session_id : String)
    (command_request : CommandRequest) :
    Except String CommandResponse × ServerState :=
  let (sess?, a1) := validate_session s.auth now session_id
  match sess? with
  | none =>
    (Except.error "Invalid or expired session",
     { auth := a1, sandbox := s.sandbox })
  | some _ =>
    if command_request.session_id ≠ session_id then
      (Except.error "Session ID mismatch", { auth := a1, sandbox := s.sandbox })
    else
      let (resp, sb) := execute_command s.sandbox now command_request
      (Except.ok resp, { auth := a1, sandbox := sb })

/-- server.py `/auth/logout`: logout, and on success clean up the
sandbox. -/
def server_logout (s : ServerState) (session_id : String) :
    Bool × ServerState :=
  let (success, a1) := logout s.auth session_id
  if success then
    let (_, sb) := cleanup_sandbox s.sandbox session_id
    (success, { auth := a1, sandbox := sb })
  else (success, { auth := a1, sandbox := s.sandbox })

/-- States whose abstract filesystem agrees with the sandbox registry: a
session's directory tree exists exactly when the sandbox is registered.
This holds initially (both empty) and is preserved by `create_sandbox`
(creates and registers) and `cleanup_sandbox` (removes and
unregisters). -/
def sandboxInv (s : SandboxState) : Prop :=
  ∀ id, s.fs.contains id = dmem s.active_sandboxes id

/-! ### The end-to-end scenario of the spec (login as devops, git
status, rm -rf /, logout, re-execute), as one concrete trace.  `th` is
the abstract token hash. -/

/-- The devops user's stored API token. -/
def c4_tok (th : String → String) : String :=
  th ("devops-" ++ AUTH_TOKEN_SECRET)

/-- Initial server state under the default configuration (no
authorized_keys file). -/
def c4_s0 (th : String → String) : ServerState :=
  { auth := { api_tokens := load_api_tokens th, ssh_keys := load_ssh_keys none }
    sandbox := {} }

/-- Step 1: login with the devops API token; "S" is the minted session
id. -/
def c4_login (th : String → String) : AuthResponse × ServerState :=
  server_login (c4_s0 th) 0 "S"
    { method := .api_token, credentials := c4_tok th }

/-- Step 2: execute `git status`. -/
def c4_ex1 (th : String → String) :
    Except String CommandResponse × ServerState :=
  server_execute (c4_login th).2 1 "S"
    { session_id := "S", command := "git", args := ["status"] }

/-- Step 3: execute `rm -rf /`. -/
def c4_ex2 (th : String → String) :
    Except String CommandResponse × ServerState :=
  server_execute (c4_ex1 th).2 2 "S"
    { session_id := "S", command := "rm", args := ["-rf", "/"] }

/-- Step 4: logout. -/
def c4_logout (th : String → String) : Bool × ServerState :=
  server_logout (c4_ex2 th).2 "S"

/-- Step 5: execute again with the dead session. -/
def c4_ex3 (th : String → String) :
    Except String CommandResponse × ServerState :=
  server_execute (c4_logout th).2 3 "S"
    { session_id := "S", command := "git", args := ["status"] }

/-- The server state right after the login step, spelled out. -/
def c4_S1 (th : String → String) : ServerState :=
  { auth :=
      { active_sessions :=
          [("S", { username := "devops", auth_method := .api_token
                   created_at := 0, expires_at := 86400
                   last_activity := 0 })]
        api_tokens := load_api_tokens th
        ssh_keys := [("demo", DEMO_SSH_KEY)]
        audit := [{ kind := "authentication_success", session_id := "S"
                    fields := [("method", "api_token"),
                               ("username", "devops")] }] }
    sandbox := (create_sandbox {} 0 "S" "devops").2 }

/-- A sample finalized result record, used for concrete ring checks. -/
def c8_r : CommandResponse :=
  { command_id := "c", status := CommandStatus.completed
    stdout := "", stderr := "", timestamp := 0 }

/-! ## Supporting lemmas -/

/-! ### Dictionary lemmas -/

theorem dget_dset_self {α : Type} (d : List (String × α)) (k : String)
    (v : α) : dget (dset d k v) k = some v := by
  induction d with
  | nil => simp [dget, dset, List.find?]
  | cons kv rest ih =>
    cases h : (kv.1 == k) with
    | true => simp [dset, h, dget, List.find?]
    | false =>
      simp only [dset, h, Bool.false_eq_true, if_false]
      simpa [dget, List.find?, h] using ih

theorem dget_ddel_self {α : Type} (d : List (String × α)) (k : String) :
    dget (ddel d k) k = none := by
  induction d with
  | nil => simp [dget, ddel, List.find?]
  | cons kv rest ih =>
    by_cases h : kv.1 = k
    · simpa [ddel, List.filter, h] using ih
    · simpa [ddel, List.filter, h, dget, List.find?] using ih

theorem contains_filter_ne (l : List String) (k : String) :
    (l.filter (fun i => i ≠ k)).contains k = false := by
  induction l with
  | nil => simp
  | cons a rest ih =>
    by_cases h : a = k
    · simp [List.filter, h, ih]
    · simp [List.filter, h, ih]
      exact fun hk => h hk.symm

example : (is_command_safe "git status").1 = true := by decide
example : is_command_safe "rm -rf /" =
    (false, "Command \x27rm\x27 is blocked for security reasons") := by decide
example : (is_command_safe "git status > out.txt").1 = false := by decide
example : (is_command_safe "   ").1 = false := by decide
example : (is_command_safe "nc -l 80").1 = false := by decide


/-- Every branch of `_simulate_devops_command` returns exit code 0. -/
theorem simulate_exit_zero (command : String) (args : List String) :
    (simulate_devops_command command args).2.2 = 0 := by
  unfold simulate_devops_command
  dsimp only
  repeat' split
  all_goals rfl

/-- A shell metacharacter anywhere in the command string forces
`_is_command_safe` to reject (through whichever branch fires first). -/
theorem is_command_safe_false_of_pattern (command p : String)
    (hp : p ∈ dangerous_patterns) (hc : strContains command p = true) :
    (is_command_safe command).1 = false := by
  unfold is_command_safe is_command_safe_with
  cases hsp : splitWs (pyTrim command) with
  | nil => rfl
  | cons base rest =>
    dsimp only
    split
    · rfl
    · split
      · rfl
      · cases hf : dangerous_patterns.find? (fun q => strContains command q) with
        | some q => simp [hf]
        | none =>
          exfalso
          have := List.find?_eq_none.mp hf p hp
          simp [hc] at this

/-- `execute_command` on a failed policy check: the exact response and
the exact state change (one audit event, nothing else). -/
theorem execute_command_rejected (s : SandboxState) (now : Nat)
    (req : CommandRequest) (info : SandboxInfo)
    (hsb : dget s.active_sandboxes req.session_id = some info)
    (hun : (is_command_safe req.command).1 = false) :
    execute_command s now req =
      ({ command_id := "cmd_" ++ req.session_id ++ "_" ++ toString now
         status := .failed, stdout := ""
         stderr := "Command blocked: " ++ (is_command_safe req.command).2
         exit_code := some 1, execution_time := 0, timestamp := now },
       { s with audit := s.audit ++
           [{ kind := "unsafe_command_blocked", session_id := req.session_id
              fields := [("command", req.command),
                         ("reason", (is_command_safe req.command).2)] }] }) := by
  unfold execute_command
  dsimp only
  rw [hsb]
  simp [hun]

/-- `execute_command` on a passed policy check: the exact response, the
history append (with the 100-entry trim), the simulation call and the
two audit events. -/
theorem execute_command_passed (s : SandboxState) (now : Nat)
    (req : CommandRequest) (info : SandboxInfo) (h : List CommandResponse)
    (hsb : dget s.active_sandboxes req.session_id = some info)
    (hh : dget s.command_history req.session_id = some h)
    (hsafe : (is_command_safe req.command).1 = true) :
    execute_command s now req =
      (let out := simulate_devops_command req.command req.args
       let command_id := "cmd_" ++ req.session_id ++ "_" ++ toString now
       let response : CommandResponse :=
         { command_id
           status := if out.2.2 == 0 then .completed else .failed
           stdout := out.1, stderr := out.2.1
           exit_code := some out.2.2, execution_time := 0, timestamp := now
           resource_usage := [("cpu_time", "0"), ("memory_peak", "< 1MB"),
                              ("disk_io", "minimal")] }
       (response,
        { s with
          command_history :=
            dset s.command_history req.session_id (histTrim (h ++ [response]))
          audit := s.audit ++
            [{ kind := "command_execution_started"
               session_id := req.session_id
               fields := [("command_id", command_id),
                          ("command", req.command),
                          ("args", joinSp req.args)] },
             { kind := "command_execution_completed"
               session_id := req.session_id
               fields := [("command_id", command_id),
                          ("status",
                           if out.2.2 == 0 then "completed" else "failed"),
                          ("exit_code", toString out.2.2)] }]
          simTrace := s.simTrace ++ [(req.command, req.args)] })) := by
  unfold execute_command
  dsimp only
  rw [hsb]
  simp [hsafe, hh]

/-- `authenticate` when no credential matches. -/
theorem authenticate_failed (st : AuthState) (now : Nat) (sid : String)
    (req : AuthRequest) (hu : resolve_username st req = none) :
    authenticate st now sid req =
      ({ success := false, message := "Invalid credentials" },
       { st with audit := st.audit ++
           [{ kind := "authentication_failed", session_id := "none"
              fields := [("method", methodStr req.method),
                         ("username", (req.username).getD "")] }] }) := by
  unfold authenticate
  rw [hu]

/-- `authenticate` when a credential matches as user `u`. -/
theorem authenticate_success (st : AuthState) (now : Nat) (sid : String)
    (req : AuthRequest) (u : String)
    (hu : resolve_username st req = some u) :
    authenticate st now sid req =
      ({ success := true, session_id := some sid
         message := "Authenticated as " ++ u
         expires_at := some (now + 24 * 60 * 60) },
       { st with
         active_sessions := dset st.active_sessions sid
           { username := u, auth_method := req.method, created_at := now
             expires_at := now + 24 * 60 * 60, last_activity := now }
         audit := st.audit ++
           [{ kind := "authentication_success", session_id := sid
              fields := [("method", methodStr req.method),
                         ("username", u)] }] }) := by
  unfold authenticate
  rw [hu]

/-! ## Claims -/

/-- C1: the spec requires a provided SSH key to be accepted only when it
properly matches a stored authorized key, and in particular a key that
is merely a substring of a stored key must be rejected.  The code
(`_validate_ssh_key`, `provided_key in stored_key`) accepts the proper
substring "ssh-rsa" of the stored demo key and returns the demo user,
exhibiting the substring bypass the spec forbids. -/
theorem C1_ssh_substring_key_accepted :
    validate_ssh_key (load_ssh_keys none) "ssh-rsa" = some "demo" ∧
    load_ssh_keys none = [("demo", DEMO_SSH_KEY)] ∧
    ("ssh-rsa" : String) ≠ DEMO_SSH_KEY ∧
    strContains DEMO_SSH_KEY "ssh-rsa" = true := by
  decide

/-- C2 counterexample: an invocation whose argument list contains the
shell metacharacter ";" (command "git", args ["a;b"]) is NOT rejected:
the policy check passes, the result is `completed`, and the simulated
execution is invoked.  `_is_command_safe` inspects only
`request.command`, never `request.args`. -/
theorem C2_args_metachar_not_rejected :
    strContains "a;b" ";" = true ∧
    ";" ∈ dangerous_patterns ∧
    (execute_command (create_sandbox {} 0 "S" "alice").2 1
        { session_id := "S", command := "git", args := ["a;b"] }).1.status
      = CommandStatus.completed ∧
    (execute_command (create_sandbox {} 0 "S" "alice").2 1
        { session_id := "S", command := "git", args := ["a;b"] }).2.simTrace
      = [("git", ["a;b"])] := by
  decide

/-- C2 amended: for every invocation submitted to a session with a
sandbox whose COMMAND STRING contains one of the shell-metacharacter
sequences, the policy check rejects it — the result is `failed` with the
rejection reason in the error stream, the simulation is never invoked,
and the history is untouched.  (The argument list is not checked.) -/
theorem C2_command_metachar_rejected (s : SandboxState) (now : Nat)
    (req : CommandRequest) (info : SandboxInfo) (p : String)
    (hsb : dget s.active_sandboxes req.session_id = some info)
    (hp : p ∈ dangerous_patterns)
    (hc : strContains req.command p = true) :
    (execute_command s now req).1.status = CommandStatus.failed ∧
    (execute_command s now req).1.stderr
      = "Command blocked: " ++ (is_command_safe req.command).2 ∧
    (execute_command s now req).2.simTrace = s.simTrace ∧
    (execute_command s now req).2.command_history = s.command_history := by
  have hun := is_command_safe_false_of_pattern req.command p hp hc
  rw [execute_command_rejected s now req info hsb hun]
  exact ⟨rfl, rfl, rfl, rfl⟩

/-- Witness for the amended C2 at a concrete pipe-containing request. -/
theorem C2_command_metachar_rejected_witness :
    (execute_command (create_sandbox {} 0 "S" "w").2 1
        { session_id := "S", command := "git status | tee" }).1.status
      = CommandStatus.failed ∧
    (execute_command (create_sandbox {} 0 "S" "w").2 1
        { session_id := "S", command := "git status | tee" }).2.simTrace
      = (create_sandbox {} 0 "S" "w").2.simTrace := by
  have h := C2_command_metachar_rejected (create_sandbox {} 0 "S" "w").2 1
    { session_id := "S", command := "git status | tee" }
    (create_sandbox {} 0 "S" "w").1 "|"
    (by decide) (by decide) (by decide)
  exact ⟨h.1, h.2.2.1⟩

/-- C3 counterexample: a policy rejection in a session with a sandbox
produces a `failed` outcome and an audit event, but is NOT appended to
the session's Command Result history (it stays empty), contradicting the
claim that every outcome is appended. -/
theorem C3_rejection_missing_from_history :
    (execute_command (create_sandbox {} 0 "S" "alice").2 1
        { session_id := "S", command := "rm -rf /" }).1.status
      = CommandStatus.failed ∧
    dget (execute_command (create_sandbox {} 0 "S" "alice").2 1
        { session_id := "S", command := "rm -rf /" }).2.command_history "S"
      = some [] ∧
    (execute_command (create_sandbox {} 0 "S" "alice").2 1
        { session_id := "S", command := "rm -rf /" }).2.audit
      = (create_sandbox {} 0 "S" "alice").2.audit ++
          [{ kind := "unsafe_command_blocked", session_id := "S"
             fields := [("command", "rm -rf /"),
                        ("reason",
                         "Command \x27rm\x27 is blocked for security reasons")] }] := by
  decide

/-- C3 amended: in a session with a sandbox and a history ring, an
invocation that passes the policy check has its outcome appended to the
bounded history and emits audit events; a policy rejection emits an
audit event but is NOT appended to the history. -/
theorem C3_history_and_audit (s : SandboxState) (now : Nat)
    (req : CommandRequest) (info : SandboxInfo) (h : List CommandResponse)
    (hsb : dget s.active_sandboxes req.session_id = some info)
    (hh : dget s.command_history req.session_id = some h) :
    ((is_command_safe req.command).1 = true →
      dget (execute_command s now req).2.command_history req.session_id
        = some (histTrim (h ++ [(execute_command s now req).1])) ∧
      ∃ e1 e2, (execute_command s now req).2.audit = s.audit ++ [e1, e2] ∧
        e1.kind = "command_execution_started" ∧
        e2.kind = "command_execution_completed") ∧
    ((is_command_safe req.command).1 = false →
      dget (execute_command s now req).2.command_history req.session_id
        = some h ∧
      ∃ e, (execute_command s now req).2.audit = s.audit ++ [e] ∧
        e.kind = "unsafe_command_blocked") := by
  constructor
  · intro hsafe
    rw [execute_command_passed s now req info h hsb hh hsafe]
    dsimp only
    refine ⟨dget_dset_self _ _ _, ⟨_, _, rfl, rfl, rfl⟩⟩
  · intro hun
    rw [execute_command_rejected s now req info hsb hun]
    dsimp only
    exact ⟨hh, ⟨_, rfl, rfl⟩⟩

/-- Witness for the amended C3: one passed check (`git status`) and one
rejection (`rm -rf /`) at concrete states. -/
theorem C3_history_and_audit_witness :
    (dget (execute_command (create_sandbox {} 0 "S" "w").2 1
        { session_id := "S", command := "git status" }).2.command_history "S"
      = some (histTrim ([] ++ [(execute_command (create_sandbox {} 0 "S" "w").2 1
          { session_id := "S", command := "git status" }).1])) ∧
     ∃ e1 e2, (execute_command (create_sandbox {} 0 "S" "w").2 1
        { session_id := "S", command := "git status" }).2.audit
          = (create_sandbox {} 0 "S" "w").2.audit ++ [e1, e2] ∧
        e1.kind = "command_execution_started" ∧
        e2.kind = "command_execution_completed") ∧
    (dget (execute_command (create_sandbox {} 0 "S" "w").2 1
        { session_id := "S", command := "rm -rf /" }).2.command_history "S"
      = some [] ∧
     ∃ e, (execute_command (create_sandbox {} 0 "S" "w").2 1
        { session_id := "S", command := "rm -rf /" }).2.audit
          = (create_sandbox {} 0 "S" "w").2.audit ++ [e] ∧
        e.kind = "unsafe_command_blocked") := by
  constructor
  · exact (C3_history_and_audit (create_sandbox {} 0 "S" "w").2 1
      { session_id := "S", command := "git status" }
      (create_sandbox {} 0 "S" "w").1 [] (by decide) (by decide)).1 (by decide)
  · exact (C3_history_and_audit (create_sandbox {} 0 "S" "w").2 1
      { session_id := "S", command := "rm -rf /" }
      (create_sandbox {} 0 "S" "w").1 [] (by decide) (by decide)).2 (by decide)

/-- C5: `validate_session` returns Invalid for untracked ids and for
tracked sessions past their expiry instant (deleting the session and
emitting an audit "session_expired" event); for a tracked, unexpired
session it updates `last_activity` and returns the session. -/
theorem C5_validate_session (st : AuthState) (now : Nat) (id : String) :
    (dget st.active_sessions id = none →
      validate_session st now id = (none, st)) ∧
    (∀ sess, dget st.active_sessions id = some sess → now > sess.expires_at →
      validate_session st now id =
        (none,
         { st with
           active_sessions := ddel st.active_sessions id
           audit := st.audit ++
             [{ kind := "session_expired", session_id := id }] }) ∧
      dget (ddel st.active_sessions id) id = none) ∧
    (∀ sess, dget st.active_sessions id = some sess →
      ¬ now > sess.expires_at →
      validate_session st now id =
        (some (touch sess now),
         { st with
           active_sessions := dset st.active_sessions id (touch sess now) })) := by
  refine ⟨?_, ?_, ?_⟩
  · intro hn
    unfold validate_session
    rw [hn]
  · intro sess hs hexp
    refine ⟨?_, dget_ddel_self _ _⟩
    unfold validate_session
    rw [hs]
    dsimp only
    rw [if_pos hexp]
  · intro sess hs hexp
    unfold validate_session
    rw [hs]
    dsimp only
    rw [if_neg hexp]
    rfl

/-- Witness for C5: the three cases at concrete states (untracked id;
expired session; live session). -/
theorem C5_validate_session_witness :
    (validate_session { active_sessions := [] } 5 "X" =
      (none, { active_sessions := [] })) ∧
    (validate_session
        { active_sessions :=
            [("S", { username := "u", auth_method := .api_token
                     created_at := 0, expires_at := 10
                     last_activity := 0 })] } 11 "S" =
      (none,
       { active_sessions := []
         audit := [{ kind := "session_expired", session_id := "S" }] })) ∧
    (validate_session
        { active_sessions :=
            [("S", { username := "u", auth_method := .api_token
                     created_at := 0, expires_at := 10
                     last_activity := 0 })] } 9 "S" =
      (some { username := "u", auth_method := .api_token, created_at := 0
              expires_at := 10, last_activity := 9 },
       { active_sessions :=
           [("S", { username := "u", auth_method := .api_token
                    created_at := 0, expires_at := 10
                    last_activity := 9 })] })) := by
  refine ⟨?_, ?_, ?_⟩
  · exact (C5_validate_session { active_sessions := [] } 5 "X").1 (by decide)
  · have h := (C5_validate_session
      { active_sessions :=
          [("S", { username := "u", auth_method := .api_token
                   created_at := 0, expires_at := 10
                   last_activity := 0 })] } 11 "S").2.1
      { username := "u", auth_method := .api_token, created_at := 0
        expires_at := 10, last_activity := 0 } (by decide) (by decide)
    exact h.1
  · exact (C5_validate_session
      { active_sessions :=
          [("S", { username := "u", auth_method := .api_token
                   created_at := 0, expires_at := 10
                   last_activity := 0 })] } 9 "S").2.2
      { username := "u", auth_method := .api_token, created_at := 0
        expires_at := 10, last_activity := 0 } (by decide) (by decide)

/-- C7: sandbox cleanup is idempotent and leaves the session's abstract
filesystem root absent, on any state where the directory tree exists
exactly for registered sandboxes (`sandboxInv`, which holds in every
reachable state); a second cleanup, or a cleanup of an unprovisioned
session id, returns `false` without error and the root stays absent.
The embedded `cleanup_sandbox` is a total function — the source wraps
every step in `try/except`, so no exception escapes to the caller. -/
theorem C7_cleanup_idempotent (s : SandboxState) (sid : String)
    (hInv : sandboxInv s) :
    ((cleanup_sandbox s sid).2.fs.contains sid = false) ∧
    (cleanup_sandbox (cleanup_sandbox s sid).2 sid
      = (false, (cleanup_sandbox s sid).2)) ∧
    ((cleanup_sandbox (cleanup_sandbox s sid).2 sid).2.fs.contains sid
      = false) ∧
    (dmem s.active_sandboxes sid = false →
      cleanup_sandbox s sid = (false, s) ∧ s.fs.contains sid = false) := by
  by_cases hmem : dmem s.active_sandboxes sid = true
  · have h1 : cleanup_sandbox s sid =
        (true,
         { s with
           fs := s.fs.filter (fun i => i ≠ sid)
           active_sandboxes := ddel s.active_sandboxes sid
           command_history := ddel s.command_history sid
           audit := s.audit ++
             [{ kind := "sandbox_cleaned_up", session_id := sid }] }) := by
      unfold cleanup_sandbox
      rw [if_neg (by simp [hmem])]
    have hgone : dmem (ddel s.active_sandboxes sid) sid = false := by
      unfold dmem
      rw [dget_ddel_self]
      rfl
    have h2 : cleanup_sandbox (cleanup_sandbox s sid).2 sid
        = (false, (cleanup_sandbox s sid).2) := by
      rw [h1]
      unfold cleanup_sandbox
      rw [if_pos (by simp [hgone])]
    refine ⟨?_, h2, ?_, ?_⟩
    · rw [h1]
      exact contains_filter_ne _ _
    · rw [h2, h1]
      exact contains_filter_ne _ _
    · intro habs
      rw [habs] at hmem
      simp at hmem
  · have hmem' : dmem s.active_sandboxes sid = false := by
      cases h : dmem s.active_sandboxes sid
      · rfl
      · exact absurd h hmem
    have h1 : cleanup_sandbox s sid = (false, s) := by
      unfold cleanup_sandbox
      rw [if_pos (by simp [hmem'])]
    have habs : s.fs.contains sid = false := by
      rw [hInv sid, hmem']
    refine ⟨?_, ?_, ?_, fun _ => ⟨h1, habs⟩⟩
    · rw [h1]
      exact habs
    · rw [h1]
      exact h1
    · rw [h1, h1]
      exact habs

/-- Witness for C7 on the empty manager state (the invariant holds by
`rfl` there). -/
theorem C7_cleanup_idempotent_witness :
    ((cleanup_sandbox {} "S").2.fs.contains "S" = false) ∧
    (cleanup_sandbox (cleanup_sandbox {} "S").2 "S"
      = (false, (cleanup_sandbox {} "S").2)) ∧
    (cleanup_sandbox {} "S" = (false, ({} : SandboxState))) := by
  have h := C7_cleanup_idempotent {} "S" (fun _ => rfl)
  exact ⟨h.1, h.2.1, (h.2.2.2 (by decide)).1⟩

/-- C8: history retrieval with a positive limit returns at most `limit`
entries, never more than the 100-entry ring capacity, and the returned
entries are a suffix (newest-last tail) of the stored ring; a limit ≤ 0
returns everything; and the ring update keeps exactly the most recent
(at most 100) results, evicting oldest first. -/
theorem C8_history_ring (s : SandboxState) (sid : String) (limit : Int)
    (h : List CommandResponse)
    (hh : dget s.command_history sid = some h) (hlen : h.length ≤ 100) :
    (0 < limit →
      (get_command_history s sid limit).length ≤ limit.toNat ∧
      (get_command_history s sid limit).length ≤ 100 ∧
      List.IsSuffix (get_command_history s sid limit) h) ∧
    (limit ≤ 0 → get_command_history s sid limit = h) ∧
    (∀ r, histTrim (h ++ [r])
        = (h ++ [r]).drop ((h ++ [r]).length - 100) ∧
      (histTrim (h ++ [r])).length ≤ 100) := by
  refine ⟨?_, ?_, ?_⟩
  · intro hpos
    unfold get_command_history
    rw [hh]
    dsimp only
    rw [if_pos hpos]
    refine ⟨?_, ?_, List.drop_suffix _ _⟩
    · rw [List.length_drop]
      omega
    · rw [List.length_drop]
      omega
  · intro hle
    unfold get_command_history
    rw [hh]
    dsimp only
    rw [if_neg (by omega)]
  · intro r
    unfold histTrim
    by_cases hbig : (h ++ [r]).length > 100
    · rw [if_pos hbig]
      refine ⟨rfl, ?_⟩
      rw [List.length_drop]
      omega
    · rw [if_neg hbig]
      have hz : (h ++ [r]).length - 100 = 0 := by
        simp only [List.length_append, List.length_cons, List.length_nil] at *
        omega
      rw [hz, List.drop_zero]
      refine ⟨rfl, ?_⟩
      simp only [List.length_append, List.length_cons, List.length_nil] at *
      omega

/-- Witness for C8 on a freshly provisioned session (empty ring), with
limit 5, limit 0, and one ring append. -/
theorem C8_history_ring_witness :
    ((get_command_history (create_sandbox {} 0 "S" "w").2 "S" 5).length
        ≤ (5 : Int).toNat ∧
      (get_command_history (create_sandbox {} 0 "S" "w").2 "S" 5).length
        ≤ 100 ∧
      List.IsSuffix
        (get_command_history (create_sandbox {} 0 "S" "w").2 "S" 5) []) ∧
    (get_command_history (create_sandbox {} 0 "S" "w").2 "S" 0 = []) ∧
    (histTrim ([] ++ [c8_r])
      = ([] ++ [c8_r]).drop (([] ++ [c8_r]).length - 100) ∧
      (histTrim ([] ++ [c8_r])).length ≤ 100) := by
  have h := C8_history_ring (create_sandbox {} 0 "S" "w").2 "S" 5 []
    (by decide) (by decide)
  have h0 := C8_history_ring (create_sandbox {} 0 "S" "w").2 "S" 0 []
    (by decide) (by decide)
  exact ⟨h.1 (by omega), h0.2.1 (by omega), h.2.2 c8_r⟩

/-- C9: the policy verdict is a deterministic function of the submitted
command text — the same unsafe command submitted against any two manager
states, at any two times, yields the same failed status and the same
rejection message — and in the generalised checker the block-list branch
fires before the allow-list branch, so a name on both lists is rejected
with the block-list reason. -/
theorem C9_policy_deterministic (s1 s2 : SandboxState) (n1 n2 : Nat)
    (req : CommandRequest) (i1 i2 : SandboxInfo)
    (h1 : dget s1.active_sandboxes req.session_id = some i1)
    (h2 : dget s2.active_sandboxes req.session_id = some i2)
    (hun : (is_command_safe req.command).1 = false) :
    ((execute_command s1 n1 req).1.status = CommandStatus.failed ∧
     (execute_command s1 n1 req).1.status
       = (execute_command s2 n2 req).1.status ∧
     (execute_command s1 n1 req).1.stderr
       = (execute_command s2 n2 req).1.stderr ∧
     (execute_command s1 n1 req).1.stderr
       = "Command blocked: " ++ (is_command_safe req.command).2) ∧
    (∀ (blocked allowed : List String) (command base : String)
        (rest : List String),
      splitWs (pyTrim command) = base :: rest →
      blocked.contains (pyLower base) = true →
      allowed.contains (pyLower base) = true →
      is_command_safe_with blocked allowed command =
        (false,
         "Command " ++ pyq (pyLower base)
           ++ " is blocked for security reasons")) := by
  constructor
  · rw [execute_command_rejected s1 n1 req i1 h1 hun,
      execute_command_rejected s2 n2 req i2 h2 hun]
    exact ⟨rfl, rfl, rfl, rfl⟩
  · intro blocked allowed command base rest hsplit hblk hall
    unfold is_command_safe_with
    rw [hsplit]
    dsimp only
    rw [if_pos hblk]

/-- Witness for C9: the blocked command `rm -rf /` against two different
states and times, and a name placed on both lists of the generalised
checker. -/
theorem C9_policy_deterministic_witness :
    ((execute_command (create_sandbox {} 0 "S" "w").2 1
        { session_id := "S", command := "rm -rf /" }).1.status
      = CommandStatus.failed ∧
     (execute_command (create_sandbox {} 0 "S" "w").2 1
        { session_id := "S", command := "rm -rf /" }).1.status
      = (execute_command (create_sandbox {} 5 "S" "x").2 9
          { session_id := "S", command := "rm -rf /" }).1.status ∧
     (execute_command (create_sandbox {} 0 "S" "w").2 1
        { session_id := "S", command := "rm -rf /" }).1.stderr
      = (execute_command (create_sandbox {} 5 "S" "x").2 9
          { session_id := "S", command := "rm -rf /" }).1.stderr) ∧
    is_command_safe_with ["foo"] ["foo"] "foo bar" =
      (false, "Command " ++ pyq (pyLower "foo")
        ++ " is blocked for security reasons") := by
  have h := C9_policy_deterministic (create_sandbox {} 0 "S" "w").2
    (create_sandbox {} 5 "S" "x").2 1 9
    { session_id := "S", command := "rm -rf /" }
    (create_sandbox {} 0 "S" "w").1 (create_sandbox {} 5 "S" "x").1
    (by decide) (by decide) (by decide)
  exact ⟨⟨h.1.1, h.1.2.1, h.1.2.2.1⟩,
    h.2 ["foo"] ["foo"] "foo bar" "foo" ["bar"] (by decide) (by decide)
      (by decide)⟩

/-- C10: the simulated execution returns exit code 0 on every command
and argument list, so any invocation that passes the policy check in a
session with a sandbox produces a `completed` result with exit code 0 —
the failed-on-nonzero-exit and timed-out outcomes are unreachable after
a passed policy check. -/
theorem C10_simulation_always_completes :
    (∀ (command : String) (args : List String),
      (simulate_devops_command command args).2.2 = 0) ∧
    (∀ (s : SandboxState) (now : Nat) (req : CommandRequest)
        (info : SandboxInfo),
      dget s.active_sandboxes req.session_id = some info →
      (is_command_safe req.command).1 = true →
      (execute_command s now req).1.status = CommandStatus.completed ∧
      (execute_command s now req).1.exit_code = some 0) := by
  refine ⟨simulate_exit_zero, ?_⟩
  intro s now req info hsb hsafe
  unfold execute_command
  dsimp only
  rw [hsb]
  dsimp only
  rw [if_neg (by simp [hsafe])]
  dsimp only
  rw [simulate_exit_zero]
  exact ⟨rfl, rfl⟩

/-- Witness for C10: `git status` passes the policy check and completes
with exit code 0. -/
theorem C10_simulation_always_completes_witness :
    (simulate_devops_command "git" ["status"]).2.2 = 0 ∧
    (execute_command (create_sandbox {} 0 "S" "w").2 1
        { session_id := "S", command := "git", args := ["status"] }).1.status
      = CommandStatus.completed ∧
    (execute_command (create_sandbox {} 0 "S" "w").2 1
        { session_id := "S", command := "git", args := ["status"] }).1.exit_code
      = some 0 := by
  have h := C10_simulation_always_completes
  have h2 := h.2 (create_sandbox {} 0 "S" "w").2 1
    { session_id := "S", command := "git", args := ["status"] }
    (create_sandbox {} 0 "S" "w").1 (by decide) (by decide)
  exact ⟨h.1 "git" ["status"], h2.1, h2.2⟩

/-- C6: a successful authentication yields a session whose expiry is
exactly 24 hours (86400 time units) after the issuance instant and whose
stored username comes from the matched credential entry; the
client-supplied username field has no influence on the outcome; and two
successful authentications with distinct minted ids return distinct
session ids. -/
theorem C6_authenticate_properties (st : AuthState) (now : Nat)
    (sid : String) (req : AuthRequest)
    (hsucc : (authenticate st now sid req).1.success = true) :
    (authenticate st now sid req).1.expires_at
      = some (now + 24 * 60 * 60) ∧
    (authenticate st now sid req).1.session_id = some sid ∧
    (∃ u, resolve_username st req = some u ∧
      dget (authenticate st now sid req).2.active_sessions sid =
        some { username := u, auth_method := req.method, created_at := now
               expires_at := now + 24 * 60 * 60, last_activity := now }) ∧
    (∀ u', authenticate st now sid { req with username := u' }
        = authenticate st now sid req) ∧
    (∀ (st2 : AuthState) (now2 : Nat) (sid2 : String) (req2 : AuthRequest),
      (authenticate st2 now2 sid2 req2).1.success = true → sid ≠ sid2 →
      (authenticate st now sid req).1.session_id
        ≠ (authenticate st2 now2 sid2 req2).1.session_id) := by
  cases hu : resolve_username st req with
  | none =>
    rw [authenticate_failed st now sid req hu] at hsucc
    simp at hsucc
  | some u =>
    have heq := authenticate_success st now sid req u hu
    refine ⟨?_, ?_, ⟨u, rfl, ?_⟩, ?_, ?_⟩
    · rw [heq]
    · rw [heq]
    · rw [heq]
      exact dget_dset_self _ _ _
    · intro u'
      have hu' : resolve_username st { req with username := u' }
          = some u := hu
      rw [heq, authenticate_success st now sid
        { req with username := u' } u hu']
    · intro st2 now2 sid2 req2 hsucc2 hne
      cases hu2 : resolve_username st2 req2 with
      | none =>
        rw [authenticate_failed st2 now2 sid2 req2 hu2] at hsucc2
        simp at hsucc2
      | some u2 =>
        rw [heq, authenticate_success st2 now2 sid2 req2 u2 hu2]
        simp [hne]

/-- Witness for C6 on a one-token credential store. -/
theorem C6_authenticate_properties_witness :
    (authenticate { api_tokens := [("devops", "T")] } 7 "SID"
        { method := .api_token, credentials := "T" }).1.expires_at
      = some (7 + 24 * 60 * 60) ∧
    (authenticate { api_tokens := [("devops", "T")] } 7 "SID"
        { method := .api_token, credentials := "T" }).1.session_id
      = some "SID" := by
  have h := C6_authenticate_properties { api_tokens := [("devops", "T")] }
    7 "SID" { method := .api_token, credentials := "T" } (by decide)
  exact ⟨h.1, h.2.1⟩

/-- C4: the end-to-end scenario under the default configuration, for
any token hash whose stored "admin" and "devops" tokens differ (sha256
truncation, abstracted as `th`): logging in with the devops user's API
token succeeds and yields session "S" expiring at 86400; `git status`
completes with exit code 0; `rm -rf /` fails with a reason containing
"blocked"; after logout the sandbox directory for "S" is gone; and a
subsequent execute under "S" is rejected as unauthenticated. -/
theorem C4_end_to_end (th : String → String)
    (hne : th ("admin-" ++ AUTH_TOKEN_SECRET)
      ≠ th ("devops-" ++ AUTH_TOKEN_SECRET)) :
    (c4_login th).1.success = true ∧
    (c4_login th).1.session_id = some "S" ∧
    (c4_login th).1.expires_at = some 86400 ∧
    (c4_ex1 th).1 = Except.ok
      { command_id := "cmd_S_1", status := CommandStatus.completed
        stdout := "On branch main\nnothing to commit, working tree clean"
        stderr := "", exit_code := some 0, execution_time := 0
        timestamp := 1
        resource_usage := [("cpu_time", "0"), ("memory_peak", "< 1MB"),
                           ("disk_io", "minimal")] } ∧
    (c4_ex2 th).1 = Except.ok
      { command_id := "cmd_S_2", status := CommandStatus.failed
        stdout := ""
        stderr :=
          "Command blocked: Command \x27rm\x27 is blocked for security reasons"
        exit_code := some 1, execution_time := 0, timestamp := 2 } ∧
    strContains
      "Command blocked: Command \x27rm\x27 is blocked for security reasons"
      "blocked" = true ∧
    (c4_logout th).1 = true ∧
    (c4_logout th).2.sandbox.fs.contains "S" = false ∧
    (c4_ex3 th).1 = Except.error "Invalid or expired session" := by
  have hne2 : (th ("devops-" ++ AUTH_TOKEN_SECRET)
      == th ("admin-" ++ AUTH_TOKEN_SECRET)) = false := by
    rw [beq_eq_false_iff_ne]
    exact fun e => hne e.symm
  have hres : resolve_username (c4_s0 th).auth
      { method := .api_token, credentials := c4_tok th } = some "devops" := by
    unfold resolve_username c4_s0 c4_tok validate_api_token load_api_tokens
    dsimp only
    rw [List.find?_cons_of_neg, List.find?_cons_of_pos]
    · simp
    · simp [hne2]
  have hauth := authenticate_success (c4_s0 th).auth 0 "S"
    { method := .api_token, credentials := c4_tok th } "devops" hres
  have hlogin : c4_login th =
      ({ success := true, session_id := some "S"
         message := "Authenticated as devops", expires_at := some 86400 },
       c4_S1 th) := by
    unfold c4_login server_login
    rw [hauth]
    rfl
  refine ⟨?_, ?_, ?_, ?_, ?_, by decide, ?_, ?_, ?_⟩
  · rw [hlogin]
  · rw [hlogin]
  · rw [hlogin]
  · unfold c4_ex1
    rw [hlogin]
    rfl
  · unfold c4_ex2 c4_ex1
    rw [hlogin]
    rfl
  · unfold c4_logout c4_ex2 c4_ex1
    rw [hlogin]
    rfl
  · unfold c4_logout c4_ex2 c4_ex1
    rw [hlogin]
    rfl
  · unfold c4_ex3 c4_logout c4_ex2 c4_ex1
    rw [hlogin]
    rfl

/-- Witness for C4 with the identity in place of the token hash (the
two stored token preimages are distinct strings). -/
theorem C4_end_to_end_witness :
    (c4_login id).1.success = true ∧
    (c4_login id).1.session_id = some "S" ∧
    (c4_login id).1.expires_at = some 86400 ∧
    (c4_logout id).1 = true ∧
    (c4_logout id).2.sandbox.fs.contains "S" = false ∧
    (c4_ex3 id).1 = Except.error "Invalid or expired session" := by
  have h := C4_end_to_end id (by decide)
  exact ⟨h.1, h.2.1, h.2.2.1, h.2.2.2.2.2.2.1, h.2.2.2.2.2.2.2.1,
    h.2.2.2.2.2.2.2.2⟩

end DevOpsAgent
